import Mathlib

set_option maxRecDepth 8000

/-!
# Verification of the evdev binding layer (`src/evdev/input.c`)

Shallow embedding of the C extension module `input.c` of python-evdev:
the bitmask probe, the event wire codec (single and batch reads, unpack),
the capability enumerator, the device identity query, the narrow ioctl
wrappers, and the force-feedback control writes.

Modelling conventions:
* Kernel interactions (`read`, `write`, `ioctl`) are modelled by passing the
  outcome of the system call explicitly: the return code and the buffer
  contents the kernel deposited.  The embedded function then performs exactly
  the computation the C code performs on those outcomes.
* C byte buffers are `List Nat` with each element a byte value; machine
  integers are `Int`/`Nat` with explicit truncation where the C code
  truncates.
* Uninitialized C stack memory (an indeterminate value) is modelled as an
  extra explicit parameter holding whatever the memory contained.
* `errno` is modelled as an `Int` parameter giving the OS error code in
  effect when a system call fails; `PyErr_SetFromErrno(PyExc_IOError)`
  becomes `Except.error (PyErr.ioError errno)`.
-/

/-- Constants from `<linux/input-event-codes.h>` (the values the C file
compiles against; they are fixed by the kernel ABI). -/
def EV_MAX : Nat := 0x1f

/-- `KEY_MAX` from `<linux/input-event-codes.h>`. -/
def KEY_MAX : Nat := 0x2ff

/-- `EV_ABS` from `<linux/input-event-codes.h>`. -/
def EV_ABS : Nat := 0x03

/-- `EV_FF` from `<linux/input-event-codes.h>`. -/
def EV_FF : Nat := 0x15

/-- `FF_GAIN` from `<linux/input.h>`. -/
def FF_GAIN : Nat := 0x60

/-- `FF_AUTOCENTER` from `<linux/input.h>`. -/
def FF_AUTOCENTER : Nat := 0x61

/-- The Python-level error raised through `PyErr_SetFromErrno(PyExc_IOError)`:
it carries the OS error code that `errno` held. -/
inductive PyErr where
  | ioError (errno : Int)
deriving DecidableEq, Repr

/-- `test_bit` from `input.c`:

    int test_bit(const char* bitmask, int bit) {
        return bitmask[bit/8] & (1 << (bit % 8));
    }

The bitmask buffer is a list of byte values.  An out-of-bounds
`bitmask[bit/8]` is undefined behaviour in C; the model reads 0 there
(the in-bounds behaviour, which is all claim C2 constrains, is exact). -/
def test_bit (bitmask : List Nat) (bit : Nat) : Bool :=
  (bitmask.getD (bit / 8) 0) &&& (1 <<< (bit % 8)) != 0

/-- Declared byte size of the `ev_bits` stack buffer in `ioctl_capabilities`:
`char ev_bits[EV_MAX/8]` (C integer division truncates). -/
def ev_bits_size : Nat := EV_MAX / 8

/-- Declared byte size of the `code_bits` stack buffer in
`ioctl_capabilities`: `char code_bits[KEY_MAX/8]`. -/
def code_bits_size : Nat := KEY_MAX / 8

/-- The `struct input_event` record as the module surfaces it: the 5-tuple
`(tv_sec, tv_usec, type, code, value)` built by `Py_BuildValue("OOhhO", ...)`.
On the 64-bit platform the C file targets, `tv_sec` and `tv_usec` are signed
64-bit, `type` and `code` unsigned 16-bit, `value` signed 32-bit. -/
structure InputEvent where
  sec : Int
  usec : Int
  type : Nat
  code : Nat
  value : Int
deriving DecidableEq, Repr

/-- `sizeof(struct input_event)` on the 64-bit platform: 8 + 8 + 2 + 2 + 4. -/
def event_size : Nat := 24

/-- Little-endian byte serialization of a `w`-byte unsigned value. -/
def leBytes (w : Nat) (v : Nat) : List Nat :=
  (List.range w).map (fun k => v / 256 ^ k % 256)

/-- Unsigned value of a little-endian byte list. -/
def leVal (bs : List Nat) : Nat :=
  bs.foldr (fun b acc => b + 256 * acc) 0

/-- Two's-complement representation of a signed value in `w` bytes. -/
def toTwos (w : Nat) (v : Int) : Nat :=
  (v % ((2 : Int) ^ (8 * w))).toNat

/-- Signed value of a `w`-byte two's-complement representation. -/
def fromTwos (w : Nat) (n : Nat) : Int :=
  if n < 2 ^ (8 * w - 1) then (n : Int) else (n : Int) - 2 ^ (8 * w)

/-- The binary layout of `struct input_event` (the wire format `read` fills
and `memcpy` in `event_unpack` consumes): two 64-bit time words, two 16-bit
words, one signed 32-bit word, little-endian, no padding. -/
def encodeEvent (e : InputEvent) : List Nat :=
  leBytes 8 (toTwos 8 e.sec) ++ leBytes 8 (toTwos 8 e.usec) ++
    leBytes 2 (e.type % 65536) ++ leBytes 2 (e.code % 65536) ++
    leBytes 4 (toTwos 4 e.value)

/-- Reading the fields of a `struct input_event` overlaid on a byte buffer
(what the C code does after `read`/`memcpy` deposits `bs` there). -/
def decodeEvent (bs : List Nat) : InputEvent where
  sec := fromTwos 8 (leVal (bs.take 8))
  usec := fromTwos 8 (leVal ((bs.drop 8).take 8))
  type := leVal ((bs.drop 16).take 2)
  code := leVal ((bs.drop 18).take 2)
  value := fromTwos 4 (leVal ((bs.drop 20).take 4))

/-- Result type of `event_unpack`: either the Python `None` singleton or an
event tuple (what a struct.unpack-style function would return). -/
inductive UnpackResult where
  | none
  | event (e : InputEvent)
deriving DecidableEq, Repr

/-- `event_unpack` from `input.c`: copies the argument bytes into a local
`struct input_event` (`memcpy(&event, data, sizeof(event))`) and then
executes `Py_RETURN_NONE`, discarding the decoded record. -/
def event_unpack (data : List Nat) : UnpackResult :=
  let _event := decodeEvent (data.take event_size)
  UnpackResult.none

/-- Outcome of a `read(2)` call: the return value, and (for non-negative
returns) the bytes the kernel deposited in the caller's buffer. -/
inductive ReadOutcome where
  | err (errno : Int)
  | ok (bytes : List Nat)

/-- `device_read` from `input.c`: `read` one `struct input_event`; a negative
return raises `IOError` from `errno`; otherwise the tuple is built from the
struct's fields unconditionally (even when fewer than `sizeof(event)` bytes
were read, in which case the unwritten fields hold residual stack memory,
modelled by the `stack` parameter giving the struct contents after the
read). -/
def device_read (n : Int) (errno : Int) (stack : InputEvent) :
    Except PyErr InputEvent :=
  if n < 0 then .error (.ioError errno) else .ok stack

/-- `device_read_many` from `input.c`: one `read` of up to
`64 * sizeof(struct input_event)` bytes; a negative return raises `IOError`
from `errno`; otherwise the loop decodes `nread / event_size` whole records
(`for (i = 0; i < nread/event_size; i++)`) from the buffer in order. -/
def device_read_many (r : ReadOutcome) : Except PyErr (List InputEvent) :=
  match r with
  | .err errno => .error (.ioError errno)
  | .ok bytes =>
      .ok ((List.range (bytes.length / event_size)).map
        (fun i => decodeEvent ((bytes.drop (event_size * i)).take event_size)))

/-- `struct input_absinfo` as surfaced by
`Py_BuildValue("(iiiiii)", value, minimum, maximum, fuzz, flat, resolution)`. -/
structure AbsInfo where
  value : Int
  minimum : Int
  maximum : Int
  fuzz : Int
  flat : Int
  resolution : Int
deriving DecidableEq, Repr

/-- One entry of a capability list: a bare code integer, or — for `EV_ABS` —
the pair `(code, AbsInfo)` built in `ioctl_capabilities`. -/
inductive CapEntry where
  | bare (code : Nat)
  | abs (code : Nat) (info : AbsInfo)
deriving DecidableEq, Repr

/-- The code integer an entry carries. -/
def CapEntry.code : CapEntry → Nat
  | .bare c => c
  | .abs c _ => c

/-- The kernel side of the ioctls `ioctl_capabilities` issues: the buffer
contents each ioctl deposits, and the return codes of the inner ioctls.
The C code captures the return value only for the initial
`EVIOCGBIT(0, EV_MAX)` call; the per-type `EVIOCGBIT` and per-code
`EVIOCGABS` return values are discarded (modelled by the `*_ret` fields,
which the embedded function accordingly never reads). -/
structure KernelState where
  ev_bits : List Nat
  code_bits : Nat → List Nat
  code_ret : Nat → Int
  absinfo : Nat → AbsInfo
  abs_ret : Nat → Int

/-- The inner loop of `ioctl_capabilities` for one supported event type:
scan codes `0 ≤ ev_code < KEY_MAX`; for each set bit append `(code, absinfo)`
when `ev_type == EV_ABS`, else the bare code. -/
def capEntries (st : KernelState) (ev_type : Nat) : List CapEntry :=
  (List.range KEY_MAX).filterMap (fun ev_code =>
    if test_bit (st.code_bits ev_type) ev_code then
      some (if ev_type = EV_ABS then .abs ev_code (st.absinfo ev_code)
            else .bare ev_code)
    else none)

/-- `ioctl_capabilities` from `input.c`: if the initial
`EVIOCGBIT(0, EV_MAX)` ioctl returns a negative value, raise `IOError` from
`errno`; otherwise scan types `0 ≤ ev_type < EV_MAX` and build the
capability mapping (a Python dict in insertion order, modelled as an
association list). -/
def ioctl_capabilities (init_ret : Int) (errno : Int) (st : KernelState) :
    Except PyErr (List (Nat × List CapEntry)) :=
  if init_ret < 0 then .error (.ioError errno)
  else
    .ok ((List.range EV_MAX).filterMap (fun ev_type =>
      if test_bit st.ev_bits ev_type then some (ev_type, capEntries st ev_type)
      else none))

/-- `struct input_id`: bus type, vendor, product, version (16-bit each). -/
structure InputId where
  bustype : Nat
  vendor : Nat
  product : Nat
  version : Nat
deriving DecidableEq, Repr

/-- The tuple `Py_BuildValue("hhhhss", ...)` builds in `ioctl_devinfo`. -/
structure DevInfo where
  bustype : Nat
  vendor : Nat
  product : Nat
  version : Nat
  name : String
  phys : String
deriving DecidableEq, Repr

/-- `ioctl_devinfo` from `input.c`: a negative `EVIOCGID` or `EVIOCGNAME`
return raises `IOError`; the `EVIOCGPHYS` return value is not checked — on
failure the `phys` buffer keeps its `{0}` initialization and yields the
empty string.  Parameters are the return code and deposited contents of each
of the three ioctls. -/
def ioctl_devinfo (id_ret : Int) (iid : InputId) (name_ret : Int)
    (name : String) (phys_ret : Int) (phys : String) (errno : Int) :
    Except PyErr DevInfo :=
  if id_ret < 0 then .error (.ioError errno)
  else if name_ret < 0 then .error (.ioError errno)
  else .ok ⟨iid.bustype, iid.vendor, iid.product, iid.version, name,
            if phys_ret < 0 then "" else phys⟩

/-- `ioctl_EVIOCGREP` from `input.c`: the ioctl status is discarded; the
zero-initialized `rep` buffer (overwritten by the kernel on success,
untouched on failure) is returned unconditionally. -/
def ioctl_EVIOCGREP (_ret : Int) (rep : Nat × Nat) : Except PyErr (Nat × Nat) :=
  .ok rep

/-- `ioctl_EVIOCSREP` from `input.c`: the raw ioctl status is returned as the
result; no error is ever raised. -/
def ioctl_EVIOCSREP (ret : Int) : Except PyErr Int :=
  .ok ret

/-- `ioctl_EVIOCGVERSION` from `input.c`: the ioctl status is discarded and
the `res` buffer contents (the version on success, indeterminate stack
memory on failure) are returned unconditionally. -/
def ioctl_EVIOCGVERSION (_ret : Int) (res : Int) : Except PyErr Int :=
  .ok res

/-- `ioctl_EVIOCGRAB` from `input.c`: a non-zero ioctl status raises
`IOError`; otherwise `None` is returned. -/
def ioctl_EVIOCGRAB (ret : Int) (errno : Int) : Except PyErr Unit :=
  if ret ≠ 0 then .error (.ioError errno) else .ok ()

/-- `ioctl_EVIOCGEFFECTS` from `input.c`: a non-zero ioctl status raises
`IOError`; otherwise the fetched effect count is returned. -/
def ioctl_EVIOCGEFFECTS (ret : Int) (errno : Int) (n_effects : Int) :
    Except PyErr Int :=
  if ret ≠ 0 then .error (.ioError errno) else .ok n_effects

/-- The `struct input_event` that `set_FF_AUTOCENTER` writes.  The struct is
never zero-initialized: only `type`, `code` and `value` are assigned, so the
`time` fields hold residual stack memory (`stack_sec`, `stack_usec`). -/
def set_FF_AUTOCENTER_event (stack_sec stack_usec autocenter_force : Int) :
    InputEvent where
  sec := stack_sec
  usec := stack_usec
  type := EV_FF
  code := FF_AUTOCENTER
  value := autocenter_force

/-- The `struct input_event` that `set_FF_GAIN` writes; `time` fields are
residual stack memory as in `set_FF_AUTOCENTER_event`. -/
def set_FF_GAIN_event (stack_sec stack_usec gain : Int) : InputEvent where
  sec := stack_sec
  usec := stack_usec
  type := EV_FF
  code := FF_GAIN
  value := gain

/-- The `struct input_event` that `play_FF_EFFECT` writes; the effect id is
assigned to the 16-bit `code` field (truncating), `ntimes` to `value`;
`time` fields are residual stack memory. -/
def play_FF_EFFECT_event (stack_sec stack_usec : Int) (fxid ntimes : Int) :
    InputEvent where
  sec := stack_sec
  usec := stack_usec
  type := EV_FF
  code := (fxid % 65536).toNat
  value := ntimes

theorem testBit_of_and_shift (n k : Nat) :
    (n &&& (1 <<< k) != 0) = Nat.testBit n k := by
  rw [Nat.shiftLeft_eq, one_mul, Nat.and_two_pow]
  cases h : Nat.testBit n k <;> simp [h]

theorem filterMap_guard_eq_filter {α : Type _} (p : α → Bool) (l : List α) :
    l.filterMap (fun a => if p a then some a else none) = l.filter p := by
  induction l with
  | nil => rfl
  | cons a l ih =>
      by_cases h : p a <;> simp [List.filterMap_cons, List.filter_cons, h, ih]

theorem capEntries_map_code (st : KernelState) (t : Nat) :
    (capEntries st t).map CapEntry.code =
      (List.range KEY_MAX).filter (fun c => test_bit (st.code_bits t) c) := by
  unfold capEntries
  rw [List.map_filterMap]
  have he : (fun ev_code => (if test_bit (st.code_bits t) ev_code then
        some (if t = EV_ABS then CapEntry.abs ev_code (st.absinfo ev_code)
              else CapEntry.bare ev_code)
        else none).map CapEntry.code) =
      fun ev_code =>
        if test_bit (st.code_bits t) ev_code then some ev_code else none := by
    funext c
    split
    · split <;> rfl
    · rfl
  rw [he, filterMap_guard_eq_filter]

theorem mem_capEntries {st : KernelState} {t : Nat} {en : CapEntry}
    (h : en ∈ capEntries st t) :
    ∃ c, c < KEY_MAX ∧ test_bit (st.code_bits t) c = true ∧
      en = if t = EV_ABS then CapEntry.abs c (st.absinfo c)
           else CapEntry.bare c := by
  unfold capEntries at h
  rw [List.mem_filterMap] at h
  obtain ⟨c, hc, hf⟩ := h
  rw [List.mem_range] at hc
  by_cases hb : test_bit (st.code_bits t) c
  · rw [if_pos hb] at hf
    exact ⟨c, hc, hb, (Option.some.inj hf).symm⟩
  · rw [if_neg hb] at hf
    exact absurd hf (by simp)

/-- C2: for every byte buffer `b` and index `i` with `i/8 < length b`,
`test_bit b i` is true exactly when bit `i % 8` of byte `b[i/8]` is set
(little-endian packing within each byte); the function is pure, so it has
no side effects. -/
theorem test_bit_spec (b : List Nat) (i : Nat) (h : i / 8 < b.length) :
    test_bit b i = true ↔ Nat.testBit (b.get ⟨i / 8, h⟩) (i % 8) := by
  unfold test_bit
  rw [List.getD_eq_getElem _ _ h]
  rw [show b[i / 8] = b.get ⟨i / 8, h⟩ from rfl]
  rw [testBit_of_and_shift]

/-- Witness for C2: buffer `[0b00000101]`, bit 2 is set. -/
theorem test_bit_spec_witness :
    2 / 8 < ([5] : List Nat).length ∧
      (test_bit [5] 2 = true ↔
        Nat.testBit (([5] : List Nat).get ⟨2 / 8, by decide⟩) (2 % 8)) :=
  ⟨by decide, test_bit_spec [5] 2 (by decide)⟩

/-- C3: `event_unpack` discards the decoded record and returns `None` for
every input — so the round-trip fails, even though the bytes themselves
decode back to the original tuple (shown for the boundary values
`value = -1` and `value = 0x7FFFFFFF`). -/
theorem event_unpack_returns_none :
    (event_unpack (encodeEvent ⟨1, 2, 3, 4, -1⟩) = UnpackResult.none ∧
      event_unpack (encodeEvent ⟨1, 2, 3, 4, -1⟩) ≠ UnpackResult.event ⟨1, 2, 3, 4, -1⟩ ∧
      decodeEvent (encodeEvent ⟨1, 2, 3, 4, -1⟩) = ⟨1, 2, 3, 4, -1⟩) ∧
    (event_unpack (encodeEvent ⟨5, 6, 7, 8, 0x7FFFFFFF⟩) = UnpackResult.none ∧
      decodeEvent (encodeEvent ⟨5, 6, 7, 8, 0x7FFFFFFF⟩) = ⟨5, 6, 7, 8, 0x7FFFFFFF⟩) := by
  refine ⟨⟨rfl, by decide, ?_⟩, rfl, ?_⟩ <;> decide

/-- C5 (counterexample): a read that returns 0 bytes — fewer than one full
record, as on end-of-file — still yields a decoded tuple (built from the
residual contents of the stack struct), not a distinct "would block /
insufficient data" condition. -/
theorem device_read_short_read_yields_tuple :
    device_read 0 0 ⟨7, 8, 9, 10, 11⟩ = .ok ⟨7, 8, 9, 10, 11⟩ := rfl

/-- C5 (amended): `device_read` signals the OS error exactly when the read
return value is negative (which is how "no data" surfaces on a non-blocking
descriptor, via -1/EAGAIN, conflated with hardware errors); for every
non-negative return value, including short reads, it returns the tuple
built from the struct buffer. -/
theorem device_read_policy (n errno : Int) (stack : InputEvent) :
    (device_read n errno stack = .error (.ioError errno) ↔ n < 0) ∧
      (0 ≤ n → device_read n errno stack = .ok stack) := by
  unfold device_read
  constructor
  · constructor
    · intro h
      by_contra hn
      rw [if_neg hn] at h
      exact Except.noConfusion h
    · intro h
      rw [if_pos h]
  · intro h
    rw [if_neg (not_lt.mpr h)]

/-- Witness for C5's amended theorem: a failing read (-1, errno 11) raises
the error; a full 24-byte read returns the struct contents. -/
theorem device_read_policy_witness :
    device_read (-1) 11 ⟨0, 0, 0, 0, 0⟩ = .error (.ioError 11) ∧
      device_read 24 11 ⟨1, 2, 3, 4, 5⟩ = .ok ⟨1, 2, 3, 4, 5⟩ :=
  ⟨(device_read_policy (-1) 11 ⟨0, 0, 0, 0, 0⟩).1.mpr (by decide),
   (device_read_policy 24 11 ⟨1, 2, 3, 4, 5⟩).2 (by decide)⟩

/-- C4: `device_read_many` propagates the OS error on a negative read
return; otherwise it returns exactly `bytes_read / record_size` decoded
records in arrival order (at most 64, since the read requests at most
`64 * record_size` bytes), silently discarding trailing partial-record
bytes; zero bytes read yields the empty list, not an error. -/
theorem device_read_many_spec (errno : Int) (bytes : List Nat) :
    device_read_many (.err errno) = .error (.ioError errno) ∧
      ∃ evs, device_read_many (.ok bytes) = .ok evs ∧
        evs.length = bytes.length / event_size ∧
        (bytes.length ≤ 64 * event_size → evs.length ≤ 64) ∧
        (∀ i (h : i < evs.length),
          evs.get ⟨i, h⟩ = decodeEvent ((bytes.drop (event_size * i)).take event_size)) ∧
        device_read_many (.ok []) = .ok [] := by
  refine ⟨rfl, _, rfl, ?_, ?_, ?_, rfl⟩
  · simp
  · intro h
    simp only [List.length_map, List.length_range] at h ⊢
    exact (Nat.div_le_div_right h).trans (by decide)
  · intro i h
    simp only [List.length_map, List.length_range] at h
    simp [List.get_eq_getElem, List.getElem_map, List.getElem_range]

/-- Witness for C4: two whole records followed by 3 stray bytes decode to
exactly 2 events; the error path carries the OS error. -/
theorem device_read_many_spec_witness :
    device_read_many (.err (-7)) = .error (.ioError (-7)) ∧
      ∃ evs,
        device_read_many
            (.ok (encodeEvent ⟨1, 2, 3, 4, -1⟩ ++ encodeEvent ⟨5, 6, 7, 8, 9⟩ ++ [1, 2, 3])) =
          .ok evs ∧ evs.length = 2 ∧ evs.length ≤ 64 := by
  obtain ⟨h1, evs, h2, h3, h4, h5, h6⟩ :=
    device_read_many_spec (-7)
      (encodeEvent ⟨1, 2, 3, 4, -1⟩ ++ encodeEvent ⟨5, 6, 7, 8, 9⟩ ++ [1, 2, 3])
  exact ⟨h1, evs, h2, by rw [h3]; decide, h4 (by decide)⟩

/-- C6: a successful capability enumeration lists the supported types in
ascending order, lists each type's codes in ascending order, and stores for
`EV_ABS` the pair `(code, AbsInfo)` with the `EVIOCGABS` values, for every
other type the bare code. -/
theorem ioctl_capabilities_shape (init_ret errno : Int) (st : KernelState)
    (caps : List (Nat × List CapEntry))
    (h : ioctl_capabilities init_ret errno st = .ok caps) :
    (caps.map Prod.fst).Pairwise (· < ·) ∧
      ∀ p ∈ caps, (p.2.map CapEntry.code).Pairwise (· < ·) ∧
        ∀ en ∈ p.2,
          (p.1 = EV_ABS → ∃ c, en = CapEntry.abs c (st.absinfo c)) ∧
          (p.1 ≠ EV_ABS → en = CapEntry.bare en.code) := by
  unfold ioctl_capabilities at h
  split at h
  · exact absurd h (by simp)
  · rw [Except.ok.injEq] at h
    subst h
    constructor
    · rw [List.map_filterMap]
      have he : (fun ev_type => (if test_bit st.ev_bits ev_type then
            some (ev_type, capEntries st ev_type) else none).map Prod.fst) =
          fun ev_type =>
            if test_bit st.ev_bits ev_type then some ev_type else none := by
        funext t
        split <;> rfl
      rw [he, filterMap_guard_eq_filter]
      exact (List.pairwise_lt_range _).filter _
    · intro p hp
      rw [List.mem_filterMap] at hp
      obtain ⟨t, _, hf⟩ := hp
      by_cases hb : test_bit st.ev_bits t
      · rw [if_pos hb] at hf
        obtain rfl := Option.some.inj hf
        refine ⟨?_, ?_⟩
        · rw [capEntries_map_code]
          exact (List.pairwise_lt_range _).filter _
        · intro en hen
          obtain ⟨c, _, _, rfl⟩ := mem_capEntries hen
          constructor
          · intro habs
            rw [if_pos habs]
            exact ⟨c, rfl⟩
          · intro habs
            rw [if_neg habs]
            rfl
      · rw [if_neg hb] at hf
        exact absurd hf (by simp)

/-- Witness for C6: a device whose type bitmask byte is `0b00001010`
(types 1 = EV_KEY and 3 = EV_ABS) and whose code bitmask byte is
`0b00000101` (codes 0 and 2). -/
theorem ioctl_capabilities_shape_witness :
    ∃ caps,
      ioctl_capabilities 0 7
          ⟨[10], fun _ => [5], fun _ => 0,
            fun c => ⟨(c : Int), -1, 1, 0, 0, 0⟩, fun _ => 0⟩ = .ok caps ∧
        (caps.map Prod.fst).Pairwise (· < ·) ∧
        ∀ p ∈ caps, (p.2.map CapEntry.code).Pairwise (· < ·) := by
  obtain ⟨caps, h⟩ :
      ∃ caps, ioctl_capabilities 0 7
          ⟨[10], fun _ => [5], fun _ => 0,
            fun c => ⟨(c : Int), -1, 1, 0, 0, 0⟩, fun _ => 0⟩ = .ok caps :=
    ⟨_, by unfold ioctl_capabilities; rw [if_neg (by decide)]⟩
  obtain ⟨h1, h2⟩ := ioctl_capabilities_shape 0 7 _ caps h
  exact ⟨caps, h, h1, fun p hp => (h2 p hp).1⟩

/-- C7: the enumeration raises exactly when the initial type-bitmask ioctl
returns a negative value (and then carries the OS error); the discarded
return codes of the inner per-type `EVIOCGBIT` and per-code `EVIOCGABS`
ioctls never change the outcome. -/
theorem ioctl_capabilities_error_policy (init_ret errno : Int) (ev : List Nat)
    (cb : Nat → List Nat) (cr cr' : Nat → Int) (ai : Nat → AbsInfo)
    (ar ar' : Nat → Int) :
    ((∃ e, ioctl_capabilities init_ret errno ⟨ev, cb, cr, ai, ar⟩ = .error e) ↔
        init_ret < 0) ∧
      (init_ret < 0 →
        ioctl_capabilities init_ret errno ⟨ev, cb, cr, ai, ar⟩ =
          .error (.ioError errno)) ∧
      ioctl_capabilities init_ret errno ⟨ev, cb, cr, ai, ar⟩ =
        ioctl_capabilities init_ret errno ⟨ev, cb, cr', ai, ar'⟩ := by
  unfold ioctl_capabilities
  refine ⟨?_, ?_, ?_⟩
  · by_cases h : init_ret < 0 <;> simp [h]
  · intro h
    rw [if_pos h]
  · by_cases h : init_ret < 0
    · rw [if_pos h, if_pos h]
    · rw [if_neg h, if_neg h]
      rfl

/-- Witness for C7: with failing inner ioctls (return code -1) the
enumeration still succeeds; a failing initial ioctl raises the OS error. -/
theorem ioctl_capabilities_error_policy_witness :
    ioctl_capabilities (-1) 13
        ⟨[1], fun _ => [1], fun _ => -1, fun _ => ⟨0, 0, 0, 0, 0, 0⟩,
          fun _ => -1⟩ = .error (.ioError 13) ∧
      ¬∃ e, ioctl_capabilities 0 13
          ⟨[1], fun _ => [1], fun _ => -1, fun _ => ⟨0, 0, 0, 0, 0, 0⟩,
            fun _ => -1⟩ = .error e := by
  constructor
  · exact (ioctl_capabilities_error_policy (-1) 13 [1] (fun _ => [1])
      (fun _ => -1) (fun _ => -1) (fun _ => ⟨0, 0, 0, 0, 0, 0⟩)
      (fun _ => -1) (fun _ => -1)).2.1 (by decide)
  · intro hex
    exact absurd ((ioctl_capabilities_error_policy 0 13 [1] (fun _ => [1])
      (fun _ => -1) (fun _ => -1) (fun _ => ⟨0, 0, 0, 0, 0, 0⟩)
      (fun _ => -1) (fun _ => -1)).1.mp hex) (by decide)

/-- C1 (counter-evidence): the bitmask buffers in `ioctl_capabilities` are
sized by truncating division, not rounded up: `ev_bits` has `EV_MAX/8 = 3`
bytes, yet the type scan probes bit 24 (needing byte index 3), and
`code_bits` has `KEY_MAX/8 = 95` bytes, yet the code scan probes bit 760
(needing byte index 95).  Both probes violate `index/8 < length(buffer)`. -/
theorem capability_buffers_undersized :
    (ev_bits_size ≠ (EV_MAX + 7) / 8 ∧ code_bits_size ≠ (KEY_MAX + 7) / 8) ∧
      (24 < EV_MAX ∧ ¬ 24 / 8 < ev_bits_size) ∧
      (760 < KEY_MAX ∧ ¬ 760 / 8 < code_bits_size) := by
  decide

/-- C8: `ioctl_devinfo` fails with the OS error when the `input_id` fetch or
the name fetch fails; a failed physical-path fetch is tolerated and the
query still returns the populated identity fields with an empty physical
path. -/
theorem ioctl_devinfo_policy (id_ret name_ret phys_ret errno : Int)
    (iid : InputId) (name phys : String) :
    (id_ret < 0 ∨ name_ret < 0 →
        ioctl_devinfo id_ret iid name_ret name phys_ret phys errno =
          .error (.ioError errno)) ∧
      (0 ≤ id_ret → 0 ≤ name_ret →
        ioctl_devinfo id_ret iid name_ret name phys_ret phys errno =
          .ok ⟨iid.bustype, iid.vendor, iid.product, iid.version, name,
               if phys_ret < 0 then "" else phys⟩) ∧
      (0 ≤ id_ret → 0 ≤ name_ret → phys_ret < 0 →
        ioctl_devinfo id_ret iid name_ret name phys_ret phys errno =
          .ok ⟨iid.bustype, iid.vendor, iid.product, iid.version, name, ""⟩) := by
  unfold ioctl_devinfo
  refine ⟨?_, ?_, ?_⟩
  · rintro (h | h)
    · rw [if_pos h]
    · by_cases h1 : id_ret < 0
      · rw [if_pos h1]
      · rw [if_neg h1, if_pos h]
  · intro h1 h2
    rw [if_neg (not_lt.mpr h1), if_neg (not_lt.mpr h2)]
  · intro h1 h2 h3
    rw [if_neg (not_lt.mpr h1), if_neg (not_lt.mpr h2), if_pos h3]

/-- Witness for C8: a failed id fetch raises the error; a failed
physical-path fetch still yields the identity tuple with empty path. -/
theorem ioctl_devinfo_policy_witness :
    ioctl_devinfo (-1) ⟨1, 2, 3, 4⟩ 0 "dev" 0 "p" 5 = .error (.ioError 5) ∧
      ioctl_devinfo 0 ⟨1, 2, 3, 4⟩ 0 "dev" (-1) "p" 5 =
        .ok ⟨1, 2, 3, 4, "dev", ""⟩ :=
  ⟨(ioctl_devinfo_policy (-1) 0 0 5 ⟨1, 2, 3, 4⟩ "dev" "p").1 (Or.inl (by decide)),
   (ioctl_devinfo_policy 0 0 (-1) 5 ⟨1, 2, 3, 4⟩ "dev" "p").2.2
     (by decide) (by decide) (by decide)⟩

/-- C9 (counterexample): with a failed ioctl (status -1), the
protocol-version query returns the indeterminate `res` buffer contents
(here 1234) and signals no fault, and autorepeat-set returns the raw status
-1 as its result and signals no fault. -/
theorem version_and_srep_signal_no_fault :
    ioctl_EVIOCGVERSION (-1) 1234 = .ok 1234 ∧
      (¬∃ e, ioctl_EVIOCGVERSION (-1) 1234 = .error e) ∧
      ioctl_EVIOCSREP (-1) = .ok (-1) ∧
      ¬∃ e, ioctl_EVIOCSREP (-1) = .error e := by
  refine ⟨rfl, ?_, rfl, ?_⟩ <;> rintro ⟨e, h⟩ <;> exact Except.noConfusion h

/-- C9 (amended): grab and effect-count queries fault with the OS error
exactly on a non-zero ioctl status, but the protocol-version query returns
the `res` buffer contents regardless of the ioctl status and autorepeat-set
returns the raw ioctl status — neither of those two ever signals a fault
(additional exceptions to the uniform policy, beyond physical-path absence
and autorepeat-get's zero default). -/
theorem error_signaling_policy (ret errno res n : Int) (rep : Nat × Nat) :
    (ret ≠ 0 → ioctl_EVIOCGRAB ret errno = .error (.ioError errno)) ∧
      (ret = 0 → ioctl_EVIOCGRAB ret errno = .ok ()) ∧
      (ret ≠ 0 → ioctl_EVIOCGEFFECTS ret errno n = .error (.ioError errno)) ∧
      (ret = 0 → ioctl_EVIOCGEFFECTS ret errno n = .ok n) ∧
      ioctl_EVIOCGVERSION ret res = .ok res ∧
      ioctl_EVIOCSREP ret = .ok ret ∧
      ioctl_EVIOCGREP ret rep = .ok rep := by
  unfold ioctl_EVIOCGRAB ioctl_EVIOCGEFFECTS
  exact ⟨fun h => by rw [if_pos h], fun h => by rw [if_neg (by simp [h])],
    fun h => by rw [if_pos h], fun h => by rw [if_neg (by simp [h])],
    rfl, rfl, rfl⟩

/-- Witness for C9's amended theorem: failing and succeeding grab and
effect-count calls. -/
theorem error_signaling_policy_witness :
    ioctl_EVIOCGRAB (-1) 16 = .error (.ioError 16) ∧
      ioctl_EVIOCGRAB 0 16 = .ok () ∧
      ioctl_EVIOCGEFFECTS (-1) 16 8 = .error (.ioError 16) ∧
      ioctl_EVIOCGEFFECTS 0 16 8 = .ok 8 :=
  ⟨(error_signaling_policy (-1) 16 0 8 (0, 0)).1 (by decide),
   (error_signaling_policy 0 16 0 8 (0, 0)).2.1 rfl,
   (error_signaling_policy (-1) 16 0 8 (0, 0)).2.2.1 (by decide),
   (error_signaling_policy 0 16 0 8 (0, 0)).2.2.2.1 rfl⟩

/-- C10 (counterexample): two `set_FF_GAIN` calls with the same magnitude
but different residual stack memory write records that are not
byte-for-byte identical; likewise for autocenter and effect playback. -/
theorem ff_write_records_differ :
    encodeEvent (set_FF_GAIN_event 1 0 100) ≠
        encodeEvent (set_FF_GAIN_event 2 0 100) ∧
      encodeEvent (set_FF_AUTOCENTER_event 1 0 200) ≠
        encodeEvent (set_FF_AUTOCENTER_event 2 0 200) ∧
      encodeEvent (play_FF_EFFECT_event 1 0 3 1) ≠
        encodeEvent (play_FF_EFFECT_event 2 0 3 1) := by
  decide

/-- C10 (amended): the type, code and value fields of the records written by
`play_FF_EFFECT`, `set_FF_GAIN` and `set_FF_AUTOCENTER` are fully determined
by the call's arguments; only the timestamp fields — never assigned, holding
residual stack memory — can differ between two calls with equal arguments. -/
theorem ff_write_payload_deterministic (s u s' u' g a fx nt : Int) :
    ((set_FF_GAIN_event s u g).type = (set_FF_GAIN_event s' u' g).type ∧
      (set_FF_GAIN_event s u g).code = (set_FF_GAIN_event s' u' g).code ∧
      (set_FF_GAIN_event s u g).value = (set_FF_GAIN_event s' u' g).value) ∧
      ((set_FF_AUTOCENTER_event s u a).type = (set_FF_AUTOCENTER_event s' u' a).type ∧
        (set_FF_AUTOCENTER_event s u a).code = (set_FF_AUTOCENTER_event s' u' a).code ∧
        (set_FF_AUTOCENTER_event s u a).value = (set_FF_AUTOCENTER_event s' u' a).value) ∧
      ((play_FF_EFFECT_event s u fx nt).type = (play_FF_EFFECT_event s' u' fx nt).type ∧
        (play_FF_EFFECT_event s u fx nt).code = (play_FF_EFFECT_event s' u' fx nt).code ∧
        (play_FF_EFFECT_event s u fx nt).value = (play_FF_EFFECT_event s' u' fx nt).value) :=
  ⟨⟨rfl, rfl, rfl⟩, ⟨rfl, rfl, rfl⟩, ⟨rfl, rfl, rfl⟩⟩
